import Mathlib

/-!
Verification of the jattach attach orchestrator and protocol engine
(package jvm, file part_001, plus the CLI entry point jattach.go).

The Go code is embedded shallowly: every external interaction (process
lookup, namespace entry, credential switching, filesystem, socket reads)
is driven by an oracle environment, and the functions return their result
together with an ordered trace of the side effects they performed.
-/

namespace Jvm

/-! ## Model of Go strconv.Atoi

The Go code writes `result, _ := strconv.Atoi(s)` throughout: the error is
discarded and the accompanying value is used.  For a syntactically invalid
string Go returns the value 0 with an error, so the discarded-error idiom
yields 0.  A valid string is an optional sign followed by one or more
ASCII digits, with nothing else before or after.  (64-bit range clamping
is not modelled; every input that appears in this development is tiny.)
-/

/-- Accumulate the value of a run of ASCII digits; none if a non-digit occurs. -/
def digitsVal : List Char → Nat → Option Nat
  | [], acc => some acc
  | c :: rest, acc =>
    if '0' ≤ c ∧ c ≤ '9' then digitsVal rest (acc * 10 + (c.toNat - 48)) else none

/-- Parse a non-empty all-digit string; none otherwise. -/
def parseDigits (l : List Char) : Option Nat :=
  match l with
  | [] => none
  | _ => digitsVal l 0

/-- Model of strconv.Atoi returning some value exactly when Go returns a nil error. -/
def goAtoiOpt (s : String) : Option Int :=
  match s.data with
  | '+' :: rest => (parseDigits rest).map (fun n => (n : Int))
  | '-' :: rest => (parseDigits rest).map (fun n => -(n : Int))
  | l => (parseDigits l).map (fun n => (n : Int))

/-- The value of the Go idiom `v, _ := strconv.Atoi(s)`: 0 on a parse error. -/
def goAtoi (s : String) : Int := (goAtoiOpt s).getD 0

/-! ## CLI command validation (jattach.go, validCommand) -/

/-- Translated from validCommand in jattach.go: membership in the fixed command set. -/
def validCommand (arg : String) : Bool :=
  ["load", "threaddump", "dumpheap", "setflag", "properties",
   "jcmd", "inspectheap", "datadump", "printflag", "agentProperties"].contains arg

/-! ## Request frame encoding (part_001, writeCommand) -/

/-- Translated from writeCommand: protocol version byte '1', a NUL, then the
loop `for i := 0; i < 4; i++` emitting the raw bytes of argument i when
present followed by a NUL.  Arguments are byte lists; 49 is the byte '1'. -/
def writeCommand (args : List (List Nat)) : List Nat :=
  [49, 0] ++ ((List.range 4).map (fun i => args.getD i [] ++ [0])).flatten

/-! ## Response decoding (part_001, readResponse)

The socket is modelled by the list of byte chunks that successive
syscall.Read calls return (an empty chunk is a read returning 0; an
exhausted list also reads as 0).  Bytes are Chars since the protocol
payload is text.
-/

/-- Result of readResponse.  status is none when the Go code would panic with
an index-out-of-range (buf has exactly 2 bytes and no recognized prefix).
out is the list of chunks sent to the out channel.  extraReads counts the
reads performed by the load accumulation loop, and reinterp records whether
the load header-reinterpretation branch ran; both are instrumentation
fields that do not influence the computed data. -/
structure ReadResult where
  status : Option Int
  out : List (List Char)
  extraReads : Nat
  reinterp : Bool
deriving DecidableEq, Repr

/-- Translated from the load accumulation loop of readResponse:
`for total < len(buf)-1 { n = Read(fd, buf[total:]); total += n }`.
At its unique call site buf has just been resliced to length n = total.
A read into the remaining space overwrites buf in place; a read returning
0 (modelled by an empty chunk or an exhausted list) breaks. -/
def loadAccum (total : Nat) (buf : List Char) (reads : List (List Char)) (extra : Nat) :
    Nat × List Char × List (List Char) × Nat :=
  if total < buf.length - 1 then
    match reads with
    | [] => (total, buf, [], extra + 1)
    | c :: rest =>
      if c = [] then (total, buf, c :: rest, extra + 1)
      else
        let chunk := c.take (buf.length - total)
        loadAccum (total + chunk.length)
          (buf.take total ++ chunk ++ buf.drop (total + chunk.length)) rest (extra + 1)
  else (total, buf, reads, extra)

/-- Translated from the final drain loop of readResponse: every further read
is forwarded to the out channel until a read returns no bytes. -/
def drainReads : List (List Char) → List (List Char)
  | [] => []
  | c :: rest => if c = [] then [] else c :: drainReads rest

/-- Assemble a ReadResult on the paths that reach the drain loop:
drained chunks are relayed and then one trailing newline is sent. -/
def finishRead (result : Int) (rem : List (List Char)) (extra : Nat) (ri : Bool) : ReadResult :=
  { status := some result, out := drainReads rem ++ [['\n']], extraReads := extra, reinterp := ri }

/-- Translated from readResponse in part_001.  The first read's bytes are
parsed whole by Atoi (discarded error, so 0 on failure).  For the load
command the accumulation loop runs, then, when the whole-buffer parse gave
0 and at least 2 bytes exist, the status is re-derived from the bytes after
the assumed 2-byte header; indexing byte 2 of a 2-byte buffer is the Go
panic path, modelled as status none. -/
def readResponse (args : List String) (reads : List (List Char)) : ReadResult :=
  match reads with
  | [] => { status := some 1, out := [], extraReads := 0, reinterp := false }
  | first :: rest =>
    if first = [] then { status := some 1, out := [], extraReads := 0, reinterp := false }
    else
      let result := goAtoi (String.mk first)
      if args.headD "" = "load" then
        let r := loadAccum first.length first rest 0
        let buf := r.2.1.take r.1
        let rem := r.2.2.1
        let extra := r.2.2.2
        if result = 0 ∧ 2 ≤ buf.length then
          if ("return code: ".data).isPrefixOf (buf.drop 2) then
            finishRead (goAtoi (String.mk (buf.drop 15))) rem extra true
          else
            match buf.get? 2 with
            | none => { status := none, out := [], extraReads := extra, reinterp := true }
            | some c =>
              if ('0' ≤ c ∧ c ≤ '9') ∨ c = '-' then
                finishRead (goAtoi (String.mk (buf.drop 2))) rem extra true
              else
                finishRead (-1) rem extra true
        else finishRead result rem extra false
      else finishRead result rest 0 false

/-! ## Side-effect trace

Every externally visible action of the orchestrator and the protocol
engine is recorded, in order, as one Effect.
-/

/-- Ordered record of one side effect of the attach code. -/
inductive Effect where
  | getProcessInfo (pid : Int)
  | enterNS (pid : Int) (ns : String)
  | setegid (gid : Int)
  | seteuid (uid : Int)
  | getTmpPath (pid : Int)
  | signalIgnore
  | closeOut
  | statSocket
  | createFile (path : String)
  | removeFile (path : String)
  | kill (pid : Int)
  | sleep (ms : Nat)
  | connect
  | write (data : List Nat)
  | send (data : List Char)
deriving DecidableEq, Repr

/-- Effects performed only by the protocol engine (jattachHotspot and below). -/
def isProtocolEffect : Effect → Bool
  | Effect.statSocket => true
  | Effect.createFile _ => true
  | Effect.removeFile _ => true
  | Effect.kill _ => true
  | Effect.sleep _ => true
  | Effect.connect => true
  | Effect.write _ => true
  | Effect.send _ => true
  | _ => false

/-- The credential-switch effects. -/
def isCredEffect : Effect → Bool
  | Effect.setegid _ => true
  | Effect.seteuid _ => true
  | _ => false

/-- The sleep durations occurring in a trace, in order. -/
def sleepsOf (tr : List Effect) : List Nat :=
  tr.filterMap fun e => match e with | Effect.sleep ms => some ms | _ => none

/-! ## Trigger-file bookkeeping

The model tracks the set of trigger files created by one call to
startAttachMechanism as a list of paths (created files are appended,
os.Remove deletes; removing an absent path is the Go no-op with an
ignored error).
-/

/-- Record a successfully created file. -/
def fsAdd (p : String) (fs : List String) : List String :=
  if fs.contains p then fs else fs ++ [p]

/-- Model of os.Remove: the path no longer exists afterwards. -/
def fsRemove (p : String) (fs : List String) : List String :=
  fs.filter (fun q => q != p)

/-! ## startAttachMechanism (part_001 lines 35-62) -/

/-- Oracle outcomes for one run of startAttachMechanism.  socketAt i tells
whether checkSocket observes the listener socket at poll attempt i. -/
structure SamEnv where
  createPreferredOk : Bool
  closePreferredOk : Bool
  preferredOwner : Int
  euid : Int
  createFallbackOk : Bool
  socketAt : Nat → Bool

/-- Translated from the poll loop of startAttachMechanism:
`ts := 20ms; for i := 0; i < 300; i++ { sleep(ts); if checkSocket { remove(path); return true }; ts += 20ms }`
followed by `remove(path); return false` when the budget is exhausted.
Returns (socket seen, remaining trigger files, effect trace). -/
def attachPoll (socketAt : Nat → Bool) (path : String) :
    Nat → Nat → Nat → List String → Bool × List String × List Effect
  | 0, _, _, fs => (false, fsRemove path fs, [Effect.removeFile path])
  | fuel + 1, i, ts, fs =>
    if socketAt i then
      (true, fsRemove path fs, [Effect.sleep ts, Effect.removeFile path])
    else
      let r := attachPoll socketAt path fuel (i + 1) (ts + 20) fs
      (r.1, r.2.1, Effect.sleep ts :: r.2.2)

/-- Translated from startAttachMechanism.  The preferred trigger path is
/proc/(attachPid)/cwd/.attach_pid(nspid); when creating it fails, or it
closes cleanly but is not owned by the caller, it is removed and the
tmp-path fallback is tried, a failure of which returns false before any
signal.  Otherwise SIGQUIT is sent to pid and the poll loop runs.
Returns (success, trigger files still existing, effect trace). -/
def startAttachMechanism (pid nspid attachPid : Int) (tmpPath : String) (env : SamEnv) :
    Bool × List String × List Effect :=
  let preferred := "/proc/" ++ toString attachPid ++ "/cwd/.attach_pid" ++ toString nspid
  let fallback := tmpPath ++ "/.attach_pid" ++ toString nspid
  let fs1 := if env.createPreferredOk then fsAdd preferred [] else []
  if !env.createPreferredOk || (env.closePreferredOk && env.preferredOwner != env.euid) then
    let fs2 := fsRemove preferred fs1
    if !env.createFallbackOk then
      (false, fs2, [Effect.createFile preferred, Effect.removeFile preferred,
                    Effect.createFile fallback])
    else
      let r := attachPoll env.socketAt fallback 300 0 20 (fsAdd fallback fs2)
      (r.1, r.2.1, [Effect.createFile preferred, Effect.removeFile preferred,
                    Effect.createFile fallback, Effect.kill pid] ++ r.2.2)
  else
    let r := attachPoll env.socketAt preferred 300 0 20 fs1
    (r.1, r.2.1, [Effect.createFile preferred, Effect.kill pid] ++ r.2.2)

/-! ## Jattach and jattachHotspot (part_001 lines 149-210) -/

/-- Oracle environment for one Jattach invocation.  procInfo is the result
of util.GetProcessInfo: none for not-found, otherwise the target effective
UID, effective GID and namespaced PID it writes back.  mntChanged is the
return value of util.EnterNS for the mount namespace.  socketOpen is the
checkSocket observation made by jattachHotspot.  reads are the byte chunks
successive socket reads return. -/
structure JEnv where
  myUID : Int
  myGID : Int
  procInfo : Option (Int × Int × Int)
  mntChanged : Int
  setegidOk : Bool
  seteuidOk : Bool
  tmpPath : String
  socketOpen : Bool
  sam : SamEnv
  connectOk : Bool
  writeOk : Bool
  reads : List (List Char)

/-- Bytes of a command argument as passed to writeCommand. -/
def strBytes (s : String) : List Nat := s.data.map Char.toNat

/-- Translated from the connect / writeCommand / readResponse tail of
jattachHotspot: a failed connect or write returns 1; otherwise the
response decoding result is the exit status (none modelling the Go panic
inside readResponse). -/
def jattachConnected (args : List String) (env : JEnv) : Option Int × List Effect :=
  if !env.connectOk then (some 1, [Effect.connect])
  else if !env.writeOk then
    (some 1, [Effect.connect, Effect.write (writeCommand (args.map strBytes))])
  else
    let r := readResponse args env.reads
    (r.status, [Effect.connect, Effect.write (writeCommand (args.map strBytes))] ++
      r.out.map Effect.send)

/-- Translated from jattachHotspot: when checkSocket fails, the attach
mechanism is started (short-circuit: not even attempted when the socket is
already open), and a mechanism failure returns 1. -/
def jattachHotspot (pid nspid attachPid : Int) (args : List String) (env : JEnv) :
    Option Int × List Effect :=
  if !env.socketOpen then
    let r := startAttachMechanism pid nspid attachPid env.tmpPath env.sam
    if !r.1 then (some 1, Effect.statSocket :: r.2.2)
    else
      let h := jattachConnected args env
      (h.1, Effect.statSocket :: r.2.2 ++ h.2)
  else
    let h := jattachConnected args env
    (h.1, Effect.statSocket :: h.2)

/-- Translated from Jattach (part_001 lines 172-210).  GetProcessInfo
failure returns 1 at once; the namespaces are entered (net, ipc, mnt);
the Go short-circuit `(myGID != targetGID && Setegid != nil) || (myUID !=
targetUID && Seteuid != nil)` attempts setegid only when the GIDs differ
and seteuid only when that step did not already fail; attachPid is the
namespaced PID exactly when mntChanged > 0; `defer close(out)` is
registered only after all of that, so the closeOut effect is appended only
on traces that reach it (it runs even when readResponse panics, since a
Go panic still runs deferred calls). -/
def Jattach (pid : Int) (argv : List String) (env : JEnv) : Option Int × List Effect :=
  match env.procInfo with
  | none => (some 1, [Effect.getProcessInfo pid])
  | some (targetUID, targetGID, nspid) =>
    let t0 := [Effect.getProcessInfo pid, Effect.enterNS pid "net",
               Effect.enterNS pid "ipc", Effect.enterNS pid "mnt"]
    let gidAttempt := env.myGID != targetGID
    let t1 := t0 ++ (if gidAttempt then [Effect.setegid targetGID] else [])
    if gidAttempt && !env.setegidOk then (some 1, t1)
    else
      let uidAttempt := env.myUID != targetUID
      let t2 := t1 ++ (if uidAttempt then [Effect.seteuid targetUID] else [])
      if uidAttempt && !env.seteuidOk then (some 1, t2)
      else
        let attachPid := if 0 < env.mntChanged then nspid else pid
        let h := jattachHotspot pid nspid attachPid argv env
        (h.1, t2 ++ [Effect.getTmpPath attachPid, Effect.signalIgnore] ++
          h.2 ++ [Effect.closeOut])

/-- The exact condition under which the Go credential-switch expression of
Jattach is true (the short-circuit does not change its value, only which
calls are attempted). -/
def credSwitchFails (env : JEnv) (targetUID targetGID : Int) : Bool :=
  ((env.myGID != targetGID) && !env.setegidOk) ||
  ((env.myUID != targetUID) && !env.seteuidOk)

/-! ## The CLI entry point (jattach.go, main) -/

/-- Effects of main, at CLI granularity. -/
inductive MainEffect where
  | usage
  | invalidPid (s : String)
  | invalidCommand (s : String)
  | enableDynamicAgentLoading (pid : Int)
  | logEnableError (msg : String)
  | logEnableStatus (st : Int)
  | runJattach (pid : Int) (args : List String)
deriving DecidableEq, Repr

/-- Oracle environment for main: the raw os.Args, the outcome of
jvm.EnableDynamicAgentLoading (a function external to this repository),
and the Jattach environment. -/
structure MainEnv where
  osArgs : List String
  enableOutcome : Except String Int
  jenv : JEnv

/-- Translated from main in jattach.go: argument-count check, Atoi of the
PID argument rejecting errors and non-positive values, command validation,
then EnableDynamicAgentLoading whose error is only printed, then Jattach
on os.Args[2:] whose result becomes the exit code (none models a panic
propagating out of Jattach, in which case os.Exit is never reached). -/
def mainJattach (env : MainEnv) : Option Int × List MainEffect :=
  if env.osArgs.length < 3 then (some 1, [MainEffect.usage])
  else
    let a1 := env.osArgs.getD 1 ""
    let a2 := env.osArgs.getD 2 ""
    match goAtoiOpt a1 with
    | none => (some 1, [MainEffect.invalidPid a1])
    | some pid =>
      if pid ≤ 0 then (some 1, [MainEffect.invalidPid a1])
      else if !validCommand a2 then (some 1, [MainEffect.invalidCommand a2])
      else
        let logE := match env.enableOutcome with
          | Except.error e => MainEffect.logEnableError e
          | Except.ok st => MainEffect.logEnableStatus st
        let r := Jattach pid (env.osArgs.drop 2) env.jenv
        (r.1, [MainEffect.enableDynamicAgentLoading pid, logE,
               MainEffect.runJattach pid (env.osArgs.drop 2)])

/-! ## Concrete sample environments used by witnesses and counterexamples -/

/-- A benign startAttachMechanism oracle: the preferred trigger file is
created and owned by the caller, and the socket appears at the first poll. -/
def samReady : SamEnv :=
  { createPreferredOk := true, closePreferredOk := true, preferredOwner := 0,
    euid := 0, createFallbackOk := true, socketAt := fun _ => true }

/-- A startAttachMechanism oracle in which the socket never appears. -/
def samNever : SamEnv :=
  { createPreferredOk := true, closePreferredOk := true, preferredOwner := 0,
    euid := 0, createFallbackOk := true, socketAt := fun _ => false }

/-- A baseline Jattach oracle: matching credentials, every call succeeds,
the server replies with the single byte 0. -/
def envBase : JEnv :=
  { myUID := 0, myGID := 0, procInfo := some (0, 0, 1234), mntChanged := 0,
    setegidOk := true, seteuidOk := true, tmpPath := "/tmp", socketOpen := false,
    sam := samReady, connectOk := true, writeOk := true, reads := [['0']] }

/-- Oracle for the process-not-found path. -/
def envProcNotFound : JEnv :=
  { envBase with
    procInfo := none }

/-- Oracle in which the mount namespace changed: namespaced PID 5 differs
from the requested PID 100, so attachPid is 5, and the control socket does
not yet exist. -/
def envMntChanged : JEnv :=
  { envBase with
    procInfo := some (0, 0, 5),
    mntChanged := 1 }

/-- Oracle in which the target credentials (7, 8) differ from the caller's
(3, 4) and the seteuid call fails. -/
def envCredFail : JEnv :=
  { envBase with
    myUID := 3,
    myGID := 4,
    procInfo := some (7, 8, 5),
    seteuidOk := false }

/-- A valid CLI invocation whose EnableDynamicAgentLoading call fails;
the target socket is already open and the server replies 0. -/
def menvEnableErr : MainEnv :=
  { osArgs := ["jattach", "1234", "threaddump"],
    enableOutcome := Except.error "boom",
    jenv := { envBase with socketOpen := true } }

/-! ## Helper lemmas -/

/-- The poll loop always removes the trigger file it was given. -/
theorem attachPoll_fs (s : Nat → Bool) (p : String) :
    ∀ fuel i ts fs, (attachPoll s p fuel i ts fs).2.1 = fsRemove p fs := by
  intro fuel
  induction fuel with
  | zero => intro i ts fs; rfl
  | succ n ih =>
    intro i ts fs
    by_cases h : s i
    · simp [attachPoll, h]
    · simp [attachPoll, h, ih]

/-- The poll loop emits only sleep and removeFile effects. -/
theorem attachPoll_mem (s : Nat → Bool) (p : String) :
    ∀ fuel i ts fs e, e ∈ (attachPoll s p fuel i ts fs).2.2 →
      (∃ ms, e = Effect.sleep ms) ∨ e = Effect.removeFile p := by
  intro fuel
  induction fuel with
  | zero =>
    intro i ts fs e he
    simp [attachPoll] at he
    simp [he]
  | succ n ih =>
    intro i ts fs e he
    by_cases h : s i
    · simp [attachPoll, h] at he
      rcases he with h1 | h1 <;> simp [h1]
    · simp [attachPoll, h] at he
      rcases he with h1 | h1
      · simp [h1]
      · exact ih _ _ _ _ h1

/-- Sleeps of a trace beginning with a sleep effect. -/
theorem sleepsOf_cons_sleep (ts : Nat) (tr : List Effect) :
    sleepsOf (Effect.sleep ts :: tr) = ts :: sleepsOf tr := by
  simp [sleepsOf]

/-- The sleep durations of the poll loop form an arithmetic schedule
starting at the initial duration and growing by 20 each attempt. -/
theorem attachPoll_sleeps (s : Nat → Bool) (p : String) :
    ∀ fuel i ts fs, ∃ L, L ≤ fuel ∧
      sleepsOf (attachPoll s p fuel i ts fs).2.2 =
        (List.range L).map (fun k => ts + 20 * k) := by
  intro fuel
  induction fuel with
  | zero =>
    intro i ts fs
    exact ⟨0, Nat.le_refl 0, by simp [attachPoll, sleepsOf]⟩
  | succ n ih =>
    intro i ts fs
    by_cases h : s i
    · refine ⟨1, Nat.succ_le_succ (Nat.zero_le n), ?_⟩
      simp [attachPoll, h, sleepsOf, List.range_succ]
    · obtain ⟨L, hL, hs⟩ := ih (i + 1) (ts + 20) fs
      refine ⟨L + 1, Nat.succ_le_succ hL, ?_⟩
      have h2 : (attachPoll s p (n + 1) i ts fs).2.2
          = Effect.sleep ts :: (attachPoll s p n (i + 1) (ts + 20) fs).2.2 := by
        simp [attachPoll, h]
      rw [h2, sleepsOf_cons_sleep, hs, List.range_succ_eq_map, List.map_cons, List.map_map]
      refine congrArg₂ _ (by omega) (List.map_congr_left ?_)
      intro k _
      simp only [Function.comp_apply]
      omega

/-- C5: for every call to startAttachMechanism, whichever trigger file the
call created (the preferred /proc/(attachPID)/cwd location or the tmp-path
fallback) no longer exists when the call returns: the list of trigger files
still existing on return is empty in every oracle environment, covering the
socket-appeared, attempt-budget-exhausted and ownership-mismatch outcomes. -/
theorem startAttachMechanism_trigger_removed (pid nspid attachPid : Int) (tmpPath : String)
    (env : SamEnv) :
    (startAttachMechanism pid nspid attachPid tmpPath env).2.1 = [] := by
  simp only [startAttachMechanism]
  split
  next h1 =>
    split
    next h2 =>
      by_cases hc : env.createPreferredOk <;> simp [hc, fsAdd, fsRemove]
    next h2 =>
      rw [attachPoll_fs]
      by_cases hc : env.createPreferredOk <;> simp [hc, fsAdd, fsRemove]
  next h1 =>
    rw [attachPoll_fs]
    have hc : env.createPreferredOk = true := by
      by_contra hc
      simp [Bool.not_eq_true] at hc
      simp [hc] at h1
    simp [hc, fsAdd, fsRemove]

/-- Every effect of startAttachMechanism is a protocol-engine effect. -/
theorem sam_mem (pid nspid attachPid : Int) (tmpPath : String) (env : SamEnv) (e : Effect)
    (he : e ∈ (startAttachMechanism pid nspid attachPid tmpPath env).2.2) :
    isProtocolEffect e = true := by
  simp only [startAttachMechanism] at he
  split at he
  · split at he
    · simp at he
      rcases he with h | h | h <;> simp [h, isProtocolEffect]
    · simp at he
      rcases he with h | h | h | h | h
      · simp [h, isProtocolEffect]
      · simp [h, isProtocolEffect]
      · simp [h, isProtocolEffect]
      · simp [h, isProtocolEffect]
      · rcases attachPoll_mem _ _ _ _ _ _ _ h with ⟨ms, hms⟩ | hms <;>
          simp [hms, isProtocolEffect]
  · simp at he
    rcases he with h | h | h
    · simp [h, isProtocolEffect]
    · simp [h, isProtocolEffect]
    · rcases attachPoll_mem _ _ _ _ _ _ _ h with ⟨ms, hms⟩ | hms <;>
        simp [hms, isProtocolEffect]

/-- The only kill effect startAttachMechanism ever emits targets the
original requested pid, its first parameter. -/
theorem sam_kill (pid nspid attachPid : Int) (tmpPath : String) (env : SamEnv) (t : Int)
    (he : Effect.kill t ∈ (startAttachMechanism pid nspid attachPid tmpPath env).2.2) :
    t = pid := by
  simp only [startAttachMechanism] at he
  split at he
  · split at he
    · simp at he
    · simp at he
      rcases he with h | h
      · exact h
      · rcases attachPoll_mem _ _ _ _ _ _ _ h with ⟨ms, hms⟩ | hms <;> simp at hms
  · simp at he
    rcases he with h | h
    · exact h
    · rcases attachPoll_mem _ _ _ _ _ _ _ h with ⟨ms, hms⟩ | hms <;> simp at hms

/-- Every effect of the connect/write/read tail is a protocol-engine effect. -/
theorem connected_mem (args : List String) (env : JEnv) (e : Effect)
    (he : e ∈ (jattachConnected args env).2) : isProtocolEffect e = true := by
  simp only [jattachConnected] at he
  split at he
  · simp at he
    simp [he, isProtocolEffect]
  · split at he
    · simp at he
      rcases he with h | h <;> simp [h, isProtocolEffect]
    · simp at he
      rcases he with h | h | h
      · simp [h, isProtocolEffect]
      · simp [h, isProtocolEffect]
      · obtain ⟨d, _, hd⟩ := h
        simp [← hd, isProtocolEffect]

/-- The connect/write/read tail emits no kill effect. -/
theorem connected_no_kill (args : List String) (env : JEnv) (t : Int) :
    Effect.kill t ∉ (jattachConnected args env).2 := by
  intro he
  simp only [jattachConnected] at he
  split at he
  · simp at he
  · split at he
    · simp at he
    · simp at he

/-- Every effect of jattachHotspot is a protocol-engine effect. -/
theorem hotspot_mem (pid nspid attachPid : Int) (args : List String) (env : JEnv) (e : Effect)
    (he : e ∈ (jattachHotspot pid nspid attachPid args env).2) :
    isProtocolEffect e = true := by
  simp only [jattachHotspot] at he
  split at he
  · split at he
    · simp at he
      rcases he with h | h
      · simp [h, isProtocolEffect]
      · exact sam_mem _ _ _ _ _ _ h
    · simp at he
      rcases he with h | h | h
      · simp [h, isProtocolEffect]
      · exact sam_mem _ _ _ _ _ _ h
      · exact connected_mem _ _ _ h
  · simp at he
    rcases he with h | h
    · simp [h, isProtocolEffect]
    · exact connected_mem _ _ _ h

/-- Every kill effect of jattachHotspot targets the original requested pid. -/
theorem hotspot_kill (pid nspid attachPid : Int) (args : List String) (env : JEnv) (t : Int)
    (he : Effect.kill t ∈ (jattachHotspot pid nspid attachPid args env).2) :
    t = pid := by
  simp only [jattachHotspot] at he
  split at he
  · split at he
    · simp at he
      exact sam_kill _ _ _ _ _ _ he
    · simp at he
      rcases he with h | h
      · exact sam_kill _ _ _ _ _ _ h
      · exact absurd h (connected_no_kill _ _ _)
  · simp at he
    exact absurd he (connected_no_kill _ _ _)

/-- jattachHotspot never closes the out channel (the deferred close lives
in Jattach). -/
theorem hotspot_no_closeOut (pid nspid attachPid : Int) (args : List String) (env : JEnv) :
    Effect.closeOut ∉ (jattachHotspot pid nspid attachPid args env).2 := by
  intro he
  have h := hotspot_mem _ _ _ _ _ _ he
  simp [isProtocolEffect] at h

/-- jattachHotspot performs no credential-switch effect. -/
theorem hotspot_filter_cred (pid nspid attachPid : Int) (args : List String) (env : JEnv) :
    (jattachHotspot pid nspid attachPid args env).2.filter isCredEffect = [] := by
  rw [List.filter_eq_nil_iff]
  intro e he
  have h := hotspot_mem _ _ _ _ _ _ he
  cases e <;> simp_all [isProtocolEffect, isCredEffect]

/-- The accumulation loop is a no-op when called with total equal to the
buffer length, as at its unique call site. -/
theorem loadAccum_self (buf : List Char) (reads : List (List Char)) (extra : Nat) :
    loadAccum buf.length buf reads extra = (buf.length, buf, reads, extra) := by
  rw [loadAccum.eq_def]
  rw [if_neg (by omega)]

/-- Closed form of the sum of the poll sleep schedule. -/
theorem sched_sum (L : Nat) :
    ((List.range L).map (fun k => 20 * (k + 1))).sum = 10 * L * (L + 1) := by
  induction L with
  | zero => simp
  | succ n ih =>
    rw [List.range_succ, List.map_append, List.sum_append, ih]
    simp
    ring

/-- The sleep schedule of a whole startAttachMechanism call: at most 300
sleeps of 20, 40, 60, ... milliseconds. -/
theorem sam_sleeps (pid nspid attachPid : Int) (tmpPath : String) (env : SamEnv) :
    ∃ L, L ≤ 300 ∧
      sleepsOf (startAttachMechanism pid nspid attachPid tmpPath env).2.2 =
        (List.range L).map (fun k => 20 * (k + 1)) := by
  have base : ∀ (path : String) (fs : List String), ∃ L, L ≤ 300 ∧
      sleepsOf (attachPoll env.socketAt path 300 0 20 fs).2.2 =
        (List.range L).map (fun k => 20 * (k + 1)) := by
    intro path fs
    obtain ⟨L, hL, hs⟩ := attachPoll_sleeps env.socketAt path 300 0 20 fs
    refine ⟨L, hL, ?_⟩
    rw [hs]
    exact List.map_congr_left (fun k _ => by omega)
  simp only [startAttachMechanism]
  split
  · split
    · exact ⟨0, by omega, by simp [sleepsOf]⟩
    · obtain ⟨L, hL, hs⟩ := base _ _
      refine ⟨L, hL, ?_⟩
      simp only [sleepsOf, List.filterMap_append, List.filterMap_cons] at hs ⊢
      simpa using hs
  · obtain ⟨L, hL, hs⟩ := base _ _
    refine ⟨L, hL, ?_⟩
    simp only [sleepsOf, List.filterMap_append, List.filterMap_cons] at hs ⊢
    simpa using hs

/-! ## Claim theorems -/

/-- C6: for 0, 1 and 4 supplied arguments, writeCommand produces the byte
'1' (49), a NUL terminator, then exactly 4 argument slots, each slot being
the raw argument bytes (empty for missing arguments) followed by a NUL. -/
theorem writeCommand_four_slots (a b c d : List Nat) :
    writeCommand [] = [49, 0] ++ ([] ++ [0]) ++ ([] ++ [0]) ++ ([] ++ [0]) ++ ([] ++ [0]) ∧
    writeCommand [a] = [49, 0] ++ (a ++ [0]) ++ ([] ++ [0]) ++ ([] ++ [0]) ++ ([] ++ [0]) ∧
    writeCommand [a, b, c, d] =
      [49, 0] ++ (a ++ [0]) ++ (b ++ [0]) ++ (c ++ [0]) ++ (d ++ [0]) := by
  refine ⟨by decide, ?_, ?_⟩ <;>
    simp [writeCommand, List.range_succ]

/-- C3 counterexample: for the load command, a first chunk whose bytes
after position 2 are "-5 extra text" resolves to status 0, not -5 as
claimed, because Go strconv.Atoi rejects the trailing text and the
discarded-error idiom yields 0. -/
theorem readResponse_load_trailing_text_cex :
    (readResponse ["load"] [("0\n-5 extra text").data]).status = some 0 ∧
    ¬(readResponse ["load"] [("0\n-5 extra text").data]).status = some (-5) := by
  constructor <;> decide

/-- C3 amended: load-response decoding resolves "return code: 0" after the
2-byte header to status 0 and an unrecognized prefix such as "oops" to -1,
as claimed; but bytes "-5 extra text" after the header resolve to 0 (the
whole-suffix integer parse fails and the error is discarded), while an
exact integer suffix such as "-5" does resolve to -5. -/
theorem readResponse_load_decoding :
    (readResponse ["load"] [("0\nreturn code: 0").data]).status = some 0 ∧
    (readResponse ["load"] [("0\n-5 extra text").data]).status = some 0 ∧
    (readResponse ["load"] [("0\n-5").data]).status = some (-5) ∧
    (readResponse ["load"] [("0\noops").data]).status = some (-1) := by
  refine ⟨by decide, by decide, by decide, by decide⟩

/-- C4 (code defect): readResponse never accumulates additional bytes for
the load command: buf is resliced to the first read's length n before the
loop, so the guard total < len(buf)-1 is false at entry and the loop body
never runs.  Universally, zero loop reads are performed; concretely, for a
first read "0\x0ar" with "eturn code: 5\x0a" still available, the status
is re-derived from the first chunk alone and resolves to -1. -/
theorem readResponse_load_accum_dead :
    (∀ args reads, (readResponse args reads).extraReads = 0) ∧
    (readResponse ["load"] [("0\nr").data, ("eturn code: 5\n").data]).extraReads = 0 ∧
    (readResponse ["load"] [("0\nr").data, ("eturn code: 5\n").data]).status = some (-1) := by
  refine ⟨?_, by decide, by decide⟩
  intro args reads
  rcases reads with _ | ⟨first, rest⟩
  · rfl
  · simp only [readResponse]
    by_cases h0 : first = []
    · simp [h0]
    · rw [if_neg h0]
      by_cases hl : args.headD "" = "load"
      · rw [if_pos hl, loadAccum_self]
        split
        · split
          · rfl
          · split <;> first | rfl | (split <;> rfl)
        · rfl
      · rw [if_neg hl]
        rfl

/-- C9: for every command including load, the header re-interpretation runs
only when parsing the entire first read as a decimal integer yields 0 (a
parse failure also yielding 0); when the first read parses to a nonzero
integer, that integer is returned as the status unchanged and the
re-interpretation branch is not entered. -/
theorem readResponse_nonzero_first_parse (args : List String) (first : List Char)
    (rest : List (List Char)) (h : goAtoi (String.mk first) ≠ 0) :
    (readResponse args (first :: rest)).status = some (goAtoi (String.mk first)) ∧
    (readResponse args (first :: rest)).reinterp = false := by
  have h0 : first ≠ [] := by
    intro hfe
    rw [hfe] at h
    exact h rfl
  simp only [readResponse]
  rw [if_neg h0]
  by_cases hl : args.headD "" = "load"
  · rw [if_pos hl, loadAccum_self]
    rw [if_neg (fun hc => h hc.1)]
    exact ⟨rfl, rfl⟩
  · rw [if_neg hl]
    exact ⟨rfl, rfl⟩

/-- C9 witness: the first read "5" parses to 5, which is returned unchanged
as the status for the load command. -/
theorem readResponse_nonzero_first_parse_witness :
    goAtoi (String.mk ("5").data) ≠ 0 ∧
    (readResponse ["load"] [("5").data]).status = some (goAtoi (String.mk ("5").data)) :=
  ⟨by decide, (readResponse_nonzero_first_parse ["load"] ("5").data [] (by decide)).1⟩

set_option maxRecDepth 10000 in
/-- C8 counterexample: with the socket never appearing, the poll of
startAttachMechanism sleeps 20 + 40 + ... + 6000 ms = 903000 ms in total,
which is not roughly 15 seconds (it exceeds even 30000 ms; it is roughly
15 minutes). -/
theorem startAttachMechanism_total_sleep_cex :
    (sleepsOf (startAttachMechanism 1 1 1 "/tmp" samNever).2.2).sum = 903000 ∧
    ¬(sleepsOf (startAttachMechanism 1 1 1 "/tmp" samNever).2.2).sum ≤ 30000 := by
  constructor <;> decide

set_option maxRecDepth 10000 in
/-- C8 amended: the poll performs at most 300 attempts with sleeps starting
at 20 ms and increasing by 20 ms each attempt, and its worst-case total
sleep is 903000 ms, roughly 15 minutes (not 15 seconds); the worst case is
attained when the socket never appears. -/
theorem startAttachMechanism_poll_schedule (pid nspid attachPid : Int) (tmpPath : String)
    (env : SamEnv) :
    (∃ L, L ≤ 300 ∧
      sleepsOf (startAttachMechanism pid nspid attachPid tmpPath env).2.2 =
        (List.range L).map (fun k => 20 * (k + 1))) ∧
    (sleepsOf (startAttachMechanism pid nspid attachPid tmpPath env).2.2).sum ≤ 903000 ∧
    (sleepsOf (startAttachMechanism 1 1 1 "/tmp" samNever).2.2).sum = 903000 := by
  obtain ⟨L, hL, hs⟩ := sam_sleeps pid nspid attachPid tmpPath env
  refine ⟨⟨L, hL, hs⟩, ?_, by decide⟩
  rw [hs, sched_sum]
  calc 10 * L * (L + 1) ≤ 10 * 300 * (300 + 1) :=
        Nat.mul_le_mul (Nat.mul_le_mul_left 10 hL) (Nat.succ_le_succ hL)
    _ = 903000 := by norm_num

/-- C1 counterexample: on the process-not-found path, Jattach returns
without ever closing the out channel, so the channel is not closed exactly
once on that exit path. -/
theorem jattach_out_channel_cex :
    (Jattach 1234 ["load"] envProcNotFound).2.count Effect.closeOut = 0 ∧
    ¬(Jattach 1234 ["load"] envProcNotFound).2.count Effect.closeOut = 1 := by
  constructor <;> decide

/-- C1 amended: the out channel is closed exactly once on every exit path
that survives process lookup and the credential switch (including all
protocol-level failures, and a response-decoder panic, since the deferred
close still runs); on the process-not-found and credential-switch-failure
paths it is not closed at all, the deferred close being registered only
after those returns. -/
theorem jattach_out_channel_closed (pid : Int) (argv : List String) (env : JEnv) :
    (Jattach pid argv env).2.count Effect.closeOut =
      (match env.procInfo with
       | none => 0
       | some (tU, tG, _) => if credSwitchFails env tU tG then 0 else 1) := by
  rcases hp : env.procInfo with _ | ⟨tU, tG, nspid⟩
  · simp only [Jattach, hp]
    rw [List.count_eq_zero]
    simp
  · simp only [Jattach, hp, credSwitchFails]
    by_cases hg : ((env.myGID != tG) && !env.setegidOk) = true
    · rw [if_pos hg]
      simp only [hg, Bool.true_or, if_true]
      rw [List.count_eq_zero]
      by_cases hga : (env.myGID != tG) = true <;> simp [hga]
    · rw [if_neg hg]
      rw [Bool.not_eq_true] at hg
      by_cases hu : ((env.myUID != tU) && !env.seteuidOk) = true
      · rw [if_pos hu]
        simp only [hg, hu, Bool.false_or, if_true]
        rw [List.count_eq_zero]
        by_cases hga : (env.myGID != tG) = true <;>
          by_cases hua : (env.myUID != tU) = true <;> simp [hga, hua]
      · rw [if_neg hu]
        rw [Bool.not_eq_true] at hu
        simp only [hg, hu, Bool.or_self, if_false]
        rw [List.count_append, List.count_append]
        rw [List.count_eq_zero.mpr (hotspot_no_closeOut pid nspid _ argv env)]
        rw [List.count_eq_zero.mpr ?ht]
        case ht =>
          by_cases hga : (env.myGID != tG) = true <;>
            by_cases hua : (env.myUID != tU) = true <;> simp [hga, hua]
        simp

/-- C2 counterexample: with the mount namespace changed (mntChanged = 1)
and namespaced PID 5 for requested PID 100, the control socket absent, the
startup SIGQUIT is delivered to the original PID 100 and no signal is ever
sent to attachPID = 5, contradicting the claim that the signal goes to the
namespaced PID when the mount namespace changed. -/
theorem jattach_signal_target_cex :
    Effect.kill 100 ∈ (Jattach 100 ["threaddump"] envMntChanged).2 ∧
    Effect.kill 5 ∉ (Jattach 100 ["threaddump"] envMntChanged).2 ∧
    (0 : Int) < envMntChanged.mntChanged ∧
    envMntChanged.procInfo = some (0, 0, 5) ∧
    envMntChanged.socketOpen = false := by
  refine ⟨by decide, by decide, by decide, by decide, by decide⟩

/-- C2 amended: every startup signal Jattach delivers is addressed to the
original requested PID (the pid argument), never to the namespaced PID:
attachPID selects only the trigger-file and tmp-path locations. -/
theorem jattach_signal_targets_original_pid (pid : Int) (argv : List String) (env : JEnv)
    (t : Int) (he : Effect.kill t ∈ (Jattach pid argv env).2) : t = pid := by
  rcases hp : env.procInfo with _ | ⟨tU, tG, nspid⟩
  · simp only [Jattach, hp] at he
    simp at he
  · simp only [Jattach, hp] at he
    by_cases hga : (env.myGID != tG) = true <;>
      by_cases hua : (env.myUID != tU) = true
    all_goals split at he
    all_goals try split at he
    all_goals simp [hga, hua] at he
    all_goals exact hotspot_kill _ _ _ _ _ _ he

/-- C2 amended witness: in the mount-namespace-changed environment the kill
effect for PID 100 is in the trace, and the theorem resolves its target to
the original PID 100. -/
theorem jattach_signal_targets_original_pid_witness :
    Effect.kill 100 ∈ (Jattach 100 ["threaddump"] envMntChanged).2 ∧ (100 : Int) = 100 :=
  ⟨by decide,
   jattach_signal_targets_original_pid 100 ["threaddump"] envMntChanged 100 (by decide)⟩

/-- C7: when the caller's effective UID and GID already equal the target's,
Jattach attempts no credential-switch call; otherwise the credential
effects of the trace are exactly a setegid (when the GIDs differ) followed
by a seteuid (when the UIDs differ and the GID switch did not already
fail), so the GID switch is attempted before the UID switch; and any switch
failure makes Jattach return exit code 1 with no protocol-engine effect
performed. -/
theorem jattach_credential_switch (pid : Int) (argv : List String) (env : JEnv)
    (tU tG nspid : Int) (hp : env.procInfo = some (tU, tG, nspid)) :
    (env.myUID = tU ∧ env.myGID = tG →
      (Jattach pid argv env).2.filter isCredEffect = []) ∧
    ((Jattach pid argv env).2.filter isCredEffect =
      (if env.myGID != tG then [Effect.setegid tG] else []) ++
      (if (env.myGID != tG) && !env.setegidOk then []
       else if env.myUID != tU then [Effect.seteuid tU] else [])) ∧
    (credSwitchFails env tU tG = true →
      (Jattach pid argv env).1 = some 1 ∧
      (Jattach pid argv env).2.filter isProtocolEffect = []) := by
  have key : (Jattach pid argv env).2.filter isCredEffect =
      (if env.myGID != tG then [Effect.setegid tG] else []) ++
      (if (env.myGID != tG) && !env.setegidOk then []
       else if env.myUID != tU then [Effect.seteuid tU] else []) := by
    simp only [Jattach, hp]
    by_cases hga : (env.myGID != tG) = true <;>
      by_cases hsg : env.setegidOk = true <;>
        by_cases hua : (env.myUID != tU) = true <;>
          by_cases hsu : env.seteuidOk = true <;>
            simp [hga, hsg, hua, hsu, isCredEffect, hotspot_filter_cred]
  refine ⟨?_, key, ?_⟩
  · intro ⟨h1, h2⟩
    rw [key]
    simp [h1, h2]
  · intro hc
    simp only [credSwitchFails] at hc
    simp only [Jattach, hp]
    by_cases hga : (env.myGID != tG) = true <;>
      by_cases hsg : env.setegidOk = true <;>
        by_cases hua : (env.myUID != tU) = true <;>
          by_cases hsu : env.seteuidOk = true <;>
            simp [hga, hsg, hua, hsu, isProtocolEffect] <;>
              simp [hga, hsg, hua, hsu] at hc

/-- C7 witness: with caller (3, 4) targeting (7, 8) and a failing seteuid,
the credential switch fails, Jattach exits 1 and performs no protocol
effect. -/
theorem jattach_credential_switch_witness :
    envCredFail.procInfo = some (7, 8, 5) ∧
    credSwitchFails envCredFail 7 8 = true ∧
    ((Jattach 9 ["jcmd"] envCredFail).1 = some 1 ∧
     (Jattach 9 ["jcmd"] envCredFail).2.filter isProtocolEffect = []) :=
  ⟨rfl, by decide,
   (jattach_credential_switch 9 ["jcmd"] envCredFail 7 8 5 rfl).2.2 (by decide)⟩

/-- C10: on a valid invocation, main invokes EnableDynamicAgentLoading on
the target PID first (before the attach exchange, which is the last
effect), and its outcome is only logged: the exit code equals Jattach's
result whatever the enable outcome was. -/
theorem main_enable_best_effort (env : MainEnv) (a0 a1 a2 : String) (rest : List String)
    (pid : Int) (hargs : env.osArgs = a0 :: a1 :: a2 :: rest)
    (hpid : goAtoiOpt a1 = some pid) (hpos : 0 < pid) (hcmd : validCommand a2 = true) :
    (mainJattach env).1 = (Jattach pid (a2 :: rest) env.jenv).1 ∧
    (mainJattach env).2.head? = some (MainEffect.enableDynamicAgentLoading pid) ∧
    (mainJattach env).2.getLast? = some (MainEffect.runJattach pid (a2 :: rest)) ∧
    (∀ o, (mainJattach { env with enableOutcome := o }).1 = (mainJattach env).1) := by
  have hred : ∀ o : Except String Int,
      mainJattach { env with enableOutcome := o } =
        ((Jattach pid (a2 :: rest) env.jenv).1,
         [MainEffect.enableDynamicAgentLoading pid,
          (match o with
           | Except.error e => MainEffect.logEnableError e
           | Except.ok st => MainEffect.logEnableStatus st),
          MainEffect.runJattach pid (a2 :: rest)]) := by
    intro o
    simp only [mainJattach, hargs]
    rw [if_neg (by simp)]
    simp only [List.getD_cons_succ, List.getD_cons_zero, hpid]
    rw [if_neg (by omega), if_neg (by simp [hcmd])]
    rfl
  have hself : mainJattach env =
      ((Jattach pid (a2 :: rest) env.jenv).1,
       [MainEffect.enableDynamicAgentLoading pid,
        (match env.enableOutcome with
         | Except.error e => MainEffect.logEnableError e
         | Except.ok st => MainEffect.logEnableStatus st),
        MainEffect.runJattach pid (a2 :: rest)]) := by
    have h := hred env.enableOutcome
    simpa using h
  refine ⟨?_, ?_, ?_, ?_⟩
  · rw [hself]
  · rw [hself]
    rfl
  · rw [hself]
    rfl
  · intro o
    rw [hred o, hself]

/-- C10 witness: the concrete invocation jattach 1234 threaddump with a
failing EnableDynamicAgentLoading call still exits with Jattach's result. -/
theorem main_enable_best_effort_witness :
    menvEnableErr.osArgs = "jattach" :: "1234" :: "threaddump" :: [] ∧
    goAtoiOpt "1234" = some 1234 ∧
    (0 : Int) < 1234 ∧
    validCommand "threaddump" = true ∧
    (mainJattach menvEnableErr).1 = (Jattach 1234 ["threaddump"] menvEnableErr.jenv).1 :=
  ⟨rfl, by decide, by decide, by decide,
   (main_enable_best_effort menvEnableErr "jattach" "1234" "threaddump" [] 1234 rfl
     (by decide) (by decide) (by decide)).1⟩

end Jvm
